import Mathlib

/-!
Verification development for the cu-prelim-planner backend
(`src/backend/src/webscrape.py` and `src/backend/src/database.py`).

The Python code is shallowly embedded:

* Python strings are Lean `String`s; the handful of `str` methods the code
  uses (`strip`, `split`, `lower`, `startswith`, `join`, f-string
  concatenation) are modelled by executable functions on the underlying
  character list (`pyStrip`, `pySplitWS`, `pyLower`, `pyStartsWith`,
  `joinSp`, `++`), matching CPython semantics on the ASCII data this
  program handles.
* Exceptions are modelled by `Except PyErr`; the distinct Python exception
  classes the code can raise or catch are the constructors of `PyErr`.
* The scraper/database object state (the `WebScraper` fields, the written
  text artifacts, the PostgreSQL tables reachable through the single
  connection) is a record `SysState` threaded explicitly.  SQL execution is
  modelled structurally (a table is a list of rows; `commit` publishes the
  pending state); the SQL *strings* the code builds are reproduced verbatim
  by the `generate_*_query` functions so that their content can be examined.
* A row-level insert failure (the `OperationalError` that
  `DatabaseManager.insert_exam` catches) is injected through the
  `failing` field of `SysState`: executing an INSERT of a row in that set
  raises `operationalError`.  This abstracts the backing store; it keeps the
  transaction usable after a failed statement, which is the level at which
  the batching/commit claims about the Python code are stated.
-/

namespace CUPlanner

/-! ## Python string primitives -/

/-- Python `str.strip()`: drop whitespace from both ends (character level). -/
def trimCh (cs : List Char) : List Char :=
  ((cs.dropWhile Char.isWhitespace).reverse.dropWhile Char.isWhitespace).reverse

/-- Python `str.strip()`. -/
def pyStrip (s : String) : String := String.mk (trimCh s.data)

/-- Worker for `str.split()` with no separator: split on whitespace runs,
dropping empty fields.  `acc` holds the current word reversed. -/
def wordsAux : List Char → List Char → List (List Char)
  | [], acc => if acc = [] then [] else [acc.reverse]
  | c :: cs, acc =>
    if c.isWhitespace then
      if acc = [] then wordsAux cs [] else acc.reverse :: wordsAux cs []
    else wordsAux cs (c :: acc)

def wordsCh (cs : List Char) : List (List Char) := wordsAux cs []

/-- Python `str.split()` (no argument): whitespace-run splitting. -/
def pySplitWS (s : String) : List String := (wordsCh s.data).map String.mk

/-- Python `str.lower()` (ASCII, which is all this program feeds it). -/
def pyLower (s : String) : String := String.mk (s.data.map Char.toLower)

/-- Python `line.startswith(pre)`. -/
def pyStartsWith (s pre : String) : Bool := pre.data.isPrefixOf s.data

/-- Python `' '.join(parts)`; also models f-strings such as
`f"{a} {b}"`, which build the same space-separated concatenation. -/
def joinSp : List String → String
  | [] => ""
  | [w] => w
  | w :: ws => w ++ " " ++ joinSp ws

/-- Splitting file content into lines (Python iterates a file line by line;
every line is immediately `strip`ped, so keeping or dropping the trailing
newline is immaterial and we split on `'\n'`). -/
def splitLinesCh : List Char → List (List Char)
  | [] => [[]]
  | c :: cs =>
    if c = '\n' then [] :: splitLinesCh cs
    else
      match splitLinesCh cs with
      | [] => [[c]]
      | l :: ls => (c :: l) :: ls

def pySplitLines (s : String) : List String := (splitLinesCh s.data).map String.mk

/-- Does `pat` occur as a contiguous substring? (Used to inspect the SQL
strings the code generates.) -/
def occursSub (pat : List Char) : List Char → Bool
  | [] => pat.isPrefixOf []
  | c :: cs => pat.isPrefixOf (c :: cs) || occursSub pat cs

/-! ## Exceptions and records -/

/-- The Python exception classes relevant to this code base.
`operationalError` is psycopg2's `OperationalError` (the only database
exception the code ever catches); `programmingError` stands for the other
psycopg2 errors (e.g. querying a table that does not exist), which no
handler in this code base catches. -/
inductive PyErr where
  | indexError
  | valueError
  | typeError
  | assertionError
  | programmingError
  | operationalError
deriving DecidableEq, Repr

/-- The dictionaries built by `WebScraper.parse_exam_file`: a 3-field shape
for prelim exams and a 5-field shape for final exams. -/
inductive ExamRecord where
  | prelim (course_code exam_date exam_locations : String)
  | final (course_code exam_date exam_time test_type exam_locations : String)
deriving DecidableEq, Repr

/-- `exam_info.get('course_code')`. -/
def ExamRecord.getCourseCode : ExamRecord → String
  | .prelim c _ _ => c
  | .final c _ _ _ _ => c

/-- `exam_info.get('exam_date')`. -/
def ExamRecord.getExamDate : ExamRecord → String
  | .prelim _ d _ => d
  | .final _ d _ _ _ => d

/-- `exam_info.get('exam_locations')`. -/
def ExamRecord.getExamLocations : ExamRecord → String
  | .prelim _ _ l => l
  | .final _ _ _ _ l => l

/-- `exam_info.get('exam_time')` (`None` on the prelim shape). -/
def ExamRecord.getExamTime : ExamRecord → Option String
  | .prelim _ _ _ => none
  | .final _ _ t _ _ => some t

/-- `exam_info.get('test_type')` (`None` on the prelim shape). -/
def ExamRecord.getTestType : ExamRecord → Option String
  | .prelim _ _ _ => none
  | .final _ _ _ t _ => some t

/-! ## `WebScraper.parse_exam_file` -/

/-- The skip test of `parse_exam_file`:
`line.strip().startswith(semester) or line.strip() == ""`. -/
def skipLine (semester raw : String) : Bool :=
  pyStartsWith (pyStrip raw) semester || pyStrip raw == ""

/-- The per-line decoder of `parse_exam_file` (webscrape.py lines 82-119),
applied to `parts = line.split()`.  `etl` is `self.exam_type.lower()`.
Positional indexing that can fall off the end of `parts` yields
`indexError`; the trailing `else` branch raises `ValueError("Unknown Exam
Type")`.  f-strings such as `f"{parts[0]} {parts[1]}"` are written
`joinSp [t0, t1]`, and slices `parts[i:j]` as `take`/`drop`. -/
def decodeLine (etl : String) (parts : List String) : Except PyErr ExamRecord :=
  if etl = "prelim" then
    match parts with
    | t0 :: t1 :: t2 :: rest =>
      if t2.length = 3 then
        match rest with
        | t3 :: rest2 =>
          .ok (.prelim (pyStrip (joinSp [t0, t1, t2])) (pyStrip t3)
            (pyStrip (joinSp rest2)))
        | [] => .error .indexError
      else
        .ok (.prelim (pyStrip (joinSp [t0, t1])) (pyStrip t2)
          (pyStrip (joinSp rest)))
    | _ => .error .indexError
  else if etl = "final" then
    match parts with
    | t0 :: t1 :: t2 :: rest =>
      if t2.length = 3 then
        match rest with
        | t3 :: rest2 =>
          .ok (.final (pyStrip (joinSp [t0, t1, t2])) (pyStrip t3)
            (pyStrip (joinSp (rest2.take 2)))
            (pyStrip (joinSp ((rest2.drop 2).take 2)))
            (pyStrip (joinSp (rest2.drop 4))))
        | [] => .error .indexError
      else
        .ok (.final (pyStrip (joinSp [t0, t1])) (pyStrip t2)
          (pyStrip (joinSp (rest.take 2)))
          (pyStrip (joinSp ((rest.drop 2).take 2)))
          (pyStrip (joinSp (rest.drop 4))))
    | _ => .error .indexError
  else
    .error .valueError

/-- `WebScraper.parse_exam_file` (webscrape.py lines 70-121): iterate over
the lines, strip, skip header/empty lines, decode the rest in order.  An
exception raised on any line aborts the whole call. -/
def parse_exam_file (semester exam_type : String) :
    List String → Except PyErr (List ExamRecord)
  | [] => .ok []
  | raw :: rest =>
    if skipLine semester raw then
      parse_exam_file semester exam_type rest
    else
      match decodeLine (pyLower exam_type) (pySplitWS (pyStrip raw)) with
      | .error e => .error e
      | .ok r =>
        match parse_exam_file semester exam_type rest with
        | .error e => .error e
        | .ok rs => .ok (r :: rs)

/-! ## System state: scraper object, text artifacts, database -/

/-- The data the scraper extracts from the registrar page: the `h2` heading
text (e.g. "Fall 2024"), the emphasized header inside the `pre` block, and
the remaining preformatted text (the exam lines).  `scrape_course_info` is
given `none` when the HTTP request or the HTML element lookups fail. -/
structure Page where
  semester_info : String
  header : String
  body : String
deriving DecidableEq, Repr

/-- One database row, as the tuple psycopg2 returns. -/
structure Row where
  cells : List String
deriving DecidableEq, Repr

/-- The mutable fields of the `WebScraper` instance. -/
structure ScraperState where
  semester : String
  exam_type : String
  file_name : Option String
  exam_data_header : Option String
  year : Option String
deriving DecidableEq, Repr

/-- The whole observable state: the scraper object, the text files written
so far (newest first; a lookup sees the latest write), the
`DatabaseManager.table_name` field, the database tables as seen by this
connection (`pending`) and as last committed (`committed`), and the
injected set of rows whose INSERT raises `OperationalError`. -/
structure SysState where
  scraper : ScraperState
  files : List (String × String)
  table_name : Option String
  pending : List (String × List Row)
  committed : List (String × List Row)
  failing : List Row
deriving DecidableEq, Repr

/-- A fresh system: scraper constructed with the given semester/exam type,
no files, no selected table, empty database. -/
def initState (semester exam_type : String) (failing : List Row) : SysState :=
  ⟨⟨semester, exam_type, none, none, none⟩, [], none, [], [], failing⟩

/-- Rendering a Python value that may be `None` into an f-string. -/
def optionStr : Option String → String
  | none => "None"
  | some s => s

/-- Current contents of a table, as this connection sees them. -/
def getTable (tabs : List (String × List Row)) (t : String) : Option (List Row) :=
  tabs.lookup t

/-- Replace a table's contents (newest binding first; `getTable` sees it). -/
def putTable (tabs : List (String × List Row)) (t : String) (rows : List Row) :
    List (String × List Row) :=
  (t, rows) :: tabs

/-- `self.conn.commit()`: publish the pending state. -/
def dbCommit (s : SysState) : SysState := { s with committed := s.pending }

/-- Executing `CREATE TABLE IF NOT EXISTS t`. -/
def execCreate (s : SysState) (t : String) : SysState :=
  match getTable s.pending t with
  | some _ => s
  | none => { s with pending := putTable s.pending t [] }

/-- Executing an INSERT of `row` into `t`.  A row in the injected `failing`
set raises `OperationalError`; inserting into a nonexistent table raises a
psycopg2 error that is not an `OperationalError`. -/
def execInsert (s : SysState) (t : String) (row : Row) : SysState × Except PyErr Unit :=
  if row ∈ s.failing then (s, .error .operationalError)
  else
    match getTable s.pending t with
    | none => (s, .error .programmingError)
    | some rows => ({ s with pending := putTable s.pending t (rows ++ [row]) }, .ok ())

/-! ## SQL strings (database.py lines 49-80, 154-176, 208-232)

The query generators are reproduced verbatim, newlines and indentation
included, so the text the code would send to PostgreSQL can be inspected.
In the CREATE TABLE statement for finals the source is missing the comma
after `test_type TEXT NOT NULL` (database.py line 75) and declares the
column `test_type`, while the INSERT/UPDATE statements use a column named
`exam_or_deliverable`. -/

/-- `DatabaseManager.generate_create_table_query`. -/
def generate_create_table_query (table_name exam_type : String) :
    Except PyErr String :=
  if pyLower exam_type = "prelim" then
    .ok ("\n            CREATE TABLE IF NOT EXISTS " ++ table_name ++
      " (\n                course_code TEXT NOT NULL,\n                exam_date TEXT NOT NULL,\n                exam_locations TEXT NOT NULL\n            );\n            ")
  else if pyLower exam_type = "final" then
    .ok ("\n            CREATE TABLE IF NOT EXISTS " ++ table_name ++
      " (\n                course_code TEXT NOT NULL,\n                exam_date TEXT NOT NULL,\n                exam_time TEXT NOT NULL,\n                test_type TEXT NOT NULL \n                exam_locations TEXT NOT NULL\n            );\n            ")
  else
    .error .valueError

/-- `DatabaseManager.generate_insert_exam_query`. -/
def generate_insert_exam_query (table_name exam_type : String) :
    Except PyErr String :=
  if pyLower exam_type = "prelim" then
    .ok ("\n            INSERT INTO " ++ table_name ++
      " (course_code, exam_date, exam_locations)\n            VALUES (%s, %s, %s);\n            ")
  else if pyLower exam_type = "final" then
    .ok ("\n            INSERT INTO " ++ table_name ++
      " (course_code, exam_date, exam_time, exam_or_deliverable, exam_locations)\n            VALUES (%s, %s, %s, %s, %s);\n            ")
  else
    .error .valueError

/-- `DatabaseManager.generate_update_exam_query`. -/
def generate_update_exam_query (table_name exam_type : String) :
    Except PyErr String :=
  if pyLower exam_type = "prelim" then
    .ok ("\n            UPDATE " ++ table_name ++
      "\n            SET exam_date = %s, exam_locations = %s\n            WHERE course_code = %s;\n            ")
  else if pyLower exam_type = "final" then
    .ok ("\n            UPDATE " ++ table_name ++
      "\n            SET exam_date = %s, exam_time = %s, exam_or_deliverable = %s, exam_locations = %s\n            WHERE course_code = %s;\n            ")
  else
    .error .valueError

/-- Unwrap a generated query for inspection. -/
def qstr (q : Except PyErr String) : String := q.toOption.getD ""

/-! ## Scraper operations (webscrape.py) -/

/-- `WebScraper.save_to_text_file`: write (overwrite) a text file; its
broad `except` cannot fire in this model (writes succeed), so it returns
`True`. -/
def save_to_text_file (s : SysState) (name content : String) : SysState × Bool :=
  ({ s with files := (name, content) :: s.files }, true)

/-- `WebScraper.parse_html` (lines 37-55): record the header, extract the
year as the second whitespace token of the heading (an `IndexError` if it
is missing — by then `exam_data_header` is already set), derive the
artifact file name from `f"{sem.lower()}-{year}-{exam.lower()}-exams.txt"`,
write header and body to it, and return the body. -/
def parse_html (s : SysState) (p : Page) : SysState × Except PyErr String :=
  let s1 := { s with scraper := { s.scraper with exam_data_header := some p.header } }
  match (pySplitWS p.semester_info).get? 1 with
  | none => (s1, .error .indexError)
  | some y =>
    let fname := pyLower s1.scraper.semester ++ "-" ++ y ++ "-" ++
      pyLower s1.scraper.exam_type ++ "-exams.txt"
    let s2 := { s1 with scraper :=
      { s1.scraper with year := some y, file_name := some fname } }
    let s3 := (save_to_text_file s2 fname (p.semester_info ++ "\n" ++ p.body)).1
    (s3, .ok p.body)

/-- `WebScraper.scrape_course_info` (lines 23-35): fetch and extract; any
exception (transport failure, missing HTML elements, the `IndexError` from
year extraction) is caught by the broad `except Exception`, printed, and
turned into the sentinel `False`.  On success the extracted body string is
returned. -/
def scrape_course_info (page : Option Page) (s : SysState) :
    SysState × Except PyErr (String ⊕ Bool) :=
  match page with
  | none => (s, .ok (.inr false))
  | some p =>
    match parse_html s p with
    | (s1, .error _) => (s1, .ok (.inr false))
    | (s1, .ok body) => (s1, .ok (.inl body))

/-- `WebScraper.process_exam_data` (lines 57-68): open the artifact and
parse it.  Only `FileNotFoundError` is caught (turning into the sentinel
`False`); the `ValueError`/`IndexError` that `parse_exam_file` can raise
propagate to the caller. -/
def process_exam_data (s : SysState) (filepath : String) :
    Except PyErr ((List ExamRecord) ⊕ Bool) :=
  match s.files.lookup filepath with
  | none => .ok (.inr false)
  | some content =>
    match parse_exam_file s.scraper.semester s.scraper.exam_type
        (pySplitLines content) with
    | .error e => .error e
    | .ok recs => .ok (.inl recs)

/-! ## Store operations (database.py) -/

/-- `DatabaseManager.create_exam_table` (lines 82-101): first mutates
`self.table_name` via `set_exam_table_name`, then generates the CREATE
query — whose `ValueError` for an unknown exam type therefore escapes with
the table name already switched — then executes and commits.  Its
`except` only catches `OperationalError` (connection trouble, not
modelled). -/
def create_exam_table (s : SysState) (semester exam_type year : String) :
    SysState × Except PyErr Bool :=
  let tname := semester ++ "_" ++ year ++ "_" ++ exam_type ++ "_exams"
  let s1 := { s with table_name := some tname }
  match generate_create_table_query tname exam_type with
  | .error e => (s1, .error e)
  | .ok _q => (dbCommit (execCreate s1 tname), .ok true)

/-- `DatabaseManager.insert_exam` (lines 178-206): the insert query is
generated *outside* the `try`, so its `ValueError` propagates; inside the
`try`, the row tuple — `(code, date, locations)` for prelim,
`(code, date, time, test_type, locations)` for final, matching the
`(course_code, exam_date, exam_time, exam_or_deliverable, exam_locations)`
column list — is executed and committed.  An `OperationalError` is caught
and becomes the sentinel `False`; other database errors propagate. -/
def insert_exam (s : SysState) (code date locations exam_type : String)
    (time test_type : Option String) : SysState × Except PyErr Bool :=
  match generate_insert_exam_query (optionStr s.table_name) (pyLower exam_type) with
  | .error e => (s, .error e)
  | .ok _q =>
    let row : Row :=
      if pyLower exam_type = "prelim" then ⟨[code, date, locations]⟩
      else ⟨[code, date, optionStr time, optionStr test_type, locations]⟩
    match execInsert s (optionStr s.table_name) row with
    | (s1, .error .operationalError) => (s1, .ok false)
    | (s1, .error e) => (s1, .error e)
    | (s1, .ok ()) => (dbCommit s1, .ok true)

/-- The `for exam_info in exams_data` loop of `populate_exam_table`
(lines 118-127): each record's fields are read back out of the dictionary
and handed to `insert_exam` with `exam_type.lower()`; the boolean
`insert_exam` returns is ignored, so a failed row does not stop the loop.
`etl` is the already-lowered exam type. -/
def insertLoop (etl : String) : SysState → List ExamRecord → SysState × Except PyErr Unit
  | s, [] => (s, .ok ())
  | s, r :: rs =>
    let step :=
      if etl = "final" then
        insert_exam s r.getCourseCode r.getExamDate r.getExamLocations etl
          r.getExamTime r.getTestType
      else
        insert_exam s r.getCourseCode r.getExamDate r.getExamLocations etl none none
    match step with
    | (s1, .error e) => (s1, .error e)
    | (s1, .ok _b) => insertLoop etl s1 rs

/-- `DatabaseManager.populate_exam_table` (lines 103-131): scrape (result
ignored), re-read and parse the artifact, create the table, insert row by
row, final commit.  Only `OperationalError` is caught by the loop's `try`;
the parse/create `ValueError`s and the `TypeError` from iterating a
boolean propagate.  Passing `None` as the file path trips the
`assert filepath is not None` in `process_exam_data`. -/
def populate_exam_table (page : Option Page) (s : SysState)
    (semester exam_type : String) : SysState × Except PyErr Bool :=
  let s1 := (scrape_course_info page s).1
  match s1.scraper.file_name with
  | none => (s1, .error .assertionError)
  | some fn =>
    match process_exam_data s1 fn with
    | .error e => (s1, .error e)
    | .ok ed =>
      match create_exam_table s1 semester (pyLower exam_type)
          (optionStr s1.scraper.year) with
      | (s2, .error e) => (s2, .error e)
      | (s2, .ok _) =>
        match ed with
        | .inr _b => (s2, .error .typeError)
        | .inl recs =>
          match insertLoop (pyLower exam_type) s2 recs with
          | (s3, .error e) => (s3, .error e)
          | (s3, .ok ()) => (dbCommit s3, .ok true)

/-- `DatabaseManager.format_exam_record` (lines 341-369): shape a row tuple
according to `exam_type` — compared *without* lowering here — raising
`ValueError` for anything else before touching the tuple. -/
def format_exam_record (record : Row) (exam_type : String) :
    Except PyErr ExamRecord :=
  if exam_type = "prelim" then
    match record.cells.get? 0, record.cells.get? 1, record.cells.get? 2 with
    | some a, some b, some c => .ok (.prelim a b c)
    | _, _, _ => .error .indexError
  else if exam_type = "final" then
    match record.cells.get? 0, record.cells.get? 1, record.cells.get? 2,
        record.cells.get? 3, record.cells.get? 4 with
    | some a, some b, some c, some d, some e => .ok (.final a b c d e)
    | _, _, _, _, _ => .error .indexError
  else
    .error .valueError

/-- `DatabaseManager.fetch_exam` (lines 268-282): SELECT the rows whose
first column equals `course_code` from the current table, then format each.
The formatting `ValueError` (and the psycopg2 error for a missing table)
propagates — only `OperationalError` is caught. -/
def fetch_exam (s : SysState) (course_code exam_type : String) :
    SysState × Except PyErr (List ExamRecord) :=
  match getTable s.pending (optionStr s.table_name) with
  | none => (s, .error .programmingError)
  | some rows =>
    let hits := rows.filter (fun r => r.cells.get? 0 == some course_code)
    match hits.mapM (fun r => format_exam_record r exam_type) with
    | .error e => (s, .error e)
    | .ok recs => (s, .ok recs)

/-- Executing the prelim UPDATE (database.py lines 219-224 with the
argument tuple of line 239): the placeholders are
`SET exam_date = %s, exam_locations = %s WHERE course_code = %s` but the
code passes `(code, date, locations)`, so rows whose course_code equals
`locations` get `exam_date := code` and `exam_locations := date`. -/
def execUpdatePrelim (s : SysState) (t code date locations : String) :
    SysState × Except PyErr Unit :=
  match getTable s.pending t with
  | none => (s, .error .programmingError)
  | some rows =>
    let rows2 := rows.map (fun r =>
      if r.cells.get? 0 == some locations then
        Row.mk [(r.cells.get? 0).getD "", code, date]
      else r)
    ({ s with pending := putTable s.pending t rows2 }, .ok ())

/-- Executing the final UPDATE (lines 225-230 with the argument tuple of
line 241): placeholders `SET exam_date, exam_time, exam_or_deliverable,
exam_locations WHERE course_code` receive
`(code, date, time, test_type, locations)` in that order. -/
def execUpdateFinal (s : SysState) (t code date locations : String)
    (time test_type : Option String) : SysState × Except PyErr Unit :=
  match getTable s.pending t with
  | none => (s, .error .programmingError)
  | some rows =>
    let rows2 := rows.map (fun r =>
      if r.cells.get? 0 == some locations then
        Row.mk [(r.cells.get? 0).getD "", code, date, optionStr time,
          optionStr test_type]
      else r)
    ({ s with pending := putTable s.pending t rows2 }, .ok ())

/-- `DatabaseManager.update_exam` (lines 234-247): the query is generated
inside the `try`, but the `except` clause only catches `OperationalError`,
so the `ValueError` for an unknown exam type propagates — before any
statement has been executed. -/
def update_exam (s : SysState) (code date locations exam_type : String)
    (time test_type : Option String) : SysState × Except PyErr Bool :=
  match generate_update_exam_query (optionStr s.table_name) exam_type with
  | .error e => (s, .error e)
  | .ok _q =>
    let t := optionStr s.table_name
    let step :=
      if pyLower exam_type = "prelim" then execUpdatePrelim s t code date locations
      else execUpdateFinal s t code date locations time test_type
    match step with
    | (s1, .error .operationalError) => (s1, .ok false)
    | (s1, .error e) => (s1, .error e)
    | (s1, .ok ()) => (dbCommit s1, .ok true)

/-- Exam types the code does not recognise (every comparison in the
parse/query/insert/update paths is against the lower-cased string). -/
def unknownType (et : String) : Prop :=
  pyLower et ≠ "prelim" ∧ pyLower et ≠ "final"

/-- Token well-formedness: nonempty and whitespace-free, as produced by
Python `str.split()`. -/
def wfS (s : String) : Prop :=
  s.data ≠ [] ∧ ∀ c ∈ s.data, c.isWhitespace = false

/-- The artifact file name `parse_html` derives. -/
def fileName (s : SysState) (y : String) : String :=
  pyLower s.scraper.semester ++ "-" ++ y ++ "-" ++
    pyLower s.scraper.exam_type ++ "-exams.txt"

/-- The system state after a successful scrape of page `p` (year `y`). -/
def afterScrape (s : SysState) (p : Page) (y : String) : SysState :=
  { s with
    scraper := { s.scraper with
      exam_data_header := some p.header,
      year := some y,
      file_name := some (fileName s y) },
    files := (fileName s y, p.semester_info ++ "\n" ++ p.body) :: s.files }

/-- The system state after `create_exam_table` makes a fresh prelim table. -/
def afterCreatePrelim (s : SysState) (tname : String) : SysState :=
  dbCommit { s with
    table_name := some tname,
    pending := putTable s.pending tname [] }

/-- The database row `populate_exam_table` builds from a prelim record. -/
def prelimRow (r : ExamRecord) : Row :=
  ⟨[r.getCourseCode, r.getExamDate, r.getExamLocations]⟩

end CUPlanner

deriving instance DecidableEq for Except

namespace CUPlanner

/-! ## String-level helper lemmas -/

theorem sdata_append (a b : String) : (a ++ b).data = a.data ++ b.data := rfl

theorem smk_data (s : String) : String.mk s.data = s := rfl

theorem sappend_assoc (a b c : String) : a ++ b ++ c = a ++ (b ++ c) :=
  congrArg String.mk (List.append_assoc a.data b.data c.data)

theorem wordsAux_wf (cs : List Char) : ∀ acc, (∀ c ∈ acc, c.isWhitespace = false) →
    ∀ w ∈ wordsAux cs acc, w ≠ [] ∧ ∀ c ∈ w, c.isWhitespace = false := by
  induction cs with
  | nil =>
    intro acc hacc w hw
    unfold wordsAux at hw
    by_cases h : acc = []
    · simp [h] at hw
    · rw [if_neg h] at hw
      rcases List.mem_singleton.mp hw with rfl
      exact ⟨by simpa using h, fun c hc => hacc c (by simpa using hc)⟩
  | cons c cs ih =>
    intro acc hacc w hw
    unfold wordsAux at hw
    by_cases hws : c.isWhitespace = true
    · rw [if_pos hws] at hw
      by_cases h : acc = []
      · rw [if_pos h] at hw
        exact ih [] (by simp) w hw
      · rw [if_neg h] at hw
        rcases List.mem_cons.mp hw with rfl | h1
        · exact ⟨by simpa using h, fun d hd => hacc d (by simpa using hd)⟩
        · exact ih [] (by simp) w h1
    · rw [if_neg hws] at hw
      refine ih (c :: acc) ?_ w hw
      intro d hd
      rcases List.mem_cons.mp hd with rfl | h1
      · simpa using hws
      · exact hacc d h1

theorem pySplitWS_wf (s : String) : ∀ t ∈ pySplitWS s, wfS t := by
  intro t ht
  rcases List.mem_map.mp ht with ⟨w, hw, rfl⟩
  exact wordsAux_wf s.data [] (by simp) w hw

theorem dropWhile_eq_self_of_head (p : Char → Bool) (l : List Char)
    (h : ∀ c, l.head? = some c → p c = false) : l.dropWhile p = l := by
  cases l with
  | nil => rfl
  | cons a t =>
    rw [List.dropWhile_cons, if_neg]
    simp [h a rfl]

theorem trimCh_eq_self (d : List Char)
    (h1 : ∀ c, d.head? = some c → c.isWhitespace = false)
    (h2 : ∀ c, d.getLast? = some c → c.isWhitespace = false) :
    trimCh d = d := by
  unfold trimCh
  rw [dropWhile_eq_self_of_head _ _ h1,
    dropWhile_eq_self_of_head _ _ (fun c hc => h2 c (by rwa [List.head?_reverse] at hc)),
    List.reverse_reverse]

theorem joinSp_cons₂ (t t2 : String) (ts : List String) :
    joinSp (t :: t2 :: ts) = t ++ " " ++ joinSp (t2 :: ts) := rfl

theorem joinSp_edge : ∀ (l : List String), l ≠ [] → (∀ t ∈ l, wfS t) →
    (joinSp l).data ≠ [] ∧
    (∀ c, (joinSp l).data.head? = some c → c.isWhitespace = false) ∧
    (∀ c, (joinSp l).data.getLast? = some c → c.isWhitespace = false) := by
  intro l
  induction l with
  | nil => intro h; exact absurd rfl h
  | cons t ts ih =>
    intro _ hwf
    cases ts with
    | nil =>
      have hw := hwf t (by simp)
      refine ⟨hw.1, ?_, ?_⟩
      · intro c hc
        exact hw.2 c (List.mem_of_mem_head? hc)
      · intro c hc
        exact hw.2 c (List.mem_of_mem_getLast? hc)
    | cons t2 ts2 =>
      have hw := hwf t (by simp)
      have hrest := ih (by simp) (fun u hu => hwf u (List.mem_cons_of_mem _ hu))
      have hdata : (joinSp (t :: t2 :: ts2)).data
          = t.data ++ (' ' :: (joinSp (t2 :: ts2)).data) := by
        rw [joinSp_cons₂, sdata_append, sdata_append, List.append_assoc]
        rfl
      refine ⟨?_, ?_, ?_⟩
      · rw [hdata]
        simp
      · intro c hc
        rw [hdata, List.head?_append] at hc
        cases hh : t.data.head? with
        | none => exact absurd hh (by simpa using hw.1)
        | some b =>
          rw [hh] at hc
          simp at hc
          subst hc
          exact hw.2 b (List.mem_of_mem_head? (by rw [hh]; rfl))
      · intro c hc
        rw [hdata, List.getLast?_append] at hc
        have hne : (' ' :: (joinSp (t2 :: ts2)).data).getLast?
            = (joinSp (t2 :: ts2)).data.getLast? := by
          cases hj : (joinSp (t2 :: ts2)).data with
          | nil => exact absurd hj hrest.1
          | cons x xs => exact List.getLast?_cons_cons
        rw [hne] at hc
        cases hg : (joinSp (t2 :: ts2)).data.getLast? with
        | none =>
          rw [List.getLast?_eq_none_iff] at hg
          exact absurd hg hrest.1
        | some b =>
          rw [hg] at hc
          simp at hc
          subst hc
          exact hrest.2.2 b hg

/-- `str.strip()` is the identity on a space-join of well-formed tokens
(including the empty join). -/
theorem strip_joinSp (l : List String) (h : ∀ t ∈ l, wfS t) :
    pyStrip (joinSp l) = joinSp l := by
  by_cases hl : l = []
  · subst hl; rfl
  · have he := joinSp_edge l hl h
    unfold pyStrip
    rw [trimCh_eq_self _ he.2.1 he.2.2, smk_data]

theorem strip_single (t : String) (h : wfS t) : pyStrip t = t :=
  strip_joinSp [t] (by simpa using h)

theorem char_toLower_idem (c : Char) : c.toLower.toLower = c.toLower := by
  unfold Char.toLower
  by_cases h : c.toNat ≥ 65 ∧ c.toNat ≤ 90
  · rw [if_pos h]
    have hv : (c.toNat + 32).isValidChar := by
      left
      have := h.2
      omega
    have ht : (Char.ofNat (c.toNat + 32)).toNat = c.toNat + 32 := by
      rw [Char.ofNat, dif_pos hv]
      rfl
    rw [ht, if_neg (by omega)]
  · rw [if_neg h, if_neg h]

theorem pyLower_idem (s : String) : pyLower (pyLower s) = pyLower s := by
  unfold pyLower
  apply congrArg String.mk
  simp [char_toLower_idem]

theorem unknownType_pyLower {et : String} (h : unknownType et) :
    unknownType (pyLower et) := by
  constructor
  · rw [pyLower_idem]; exact h.1
  · rw [pyLower_idem]; exact h.2

/-! ## Parser helper lemmas -/

theorem parse_skipAll (sem et : String) :
    ∀ lines, (∀ l ∈ lines, skipLine sem l = true) →
      parse_exam_file sem et lines = .ok [] := by
  intro lines
  induction lines with
  | nil => intro _; rfl
  | cons raw rest ih =>
    intro h
    unfold parse_exam_file
    rw [if_pos (h raw (by simp))]
    exact ih (fun l hl => h l (List.mem_cons_of_mem _ hl))

theorem decodeLine_unknown {etl : String} (h1 : etl ≠ "prelim") (h2 : etl ≠ "final")
    (parts : List String) : decodeLine etl parts = .error .valueError := by
  unfold decodeLine
  rw [if_neg h1, if_neg h2]

theorem parse_unknown_first_data (sem et : String) (h : unknownType et) :
    ∀ pre d post, (∀ l ∈ pre, skipLine sem l = true) → skipLine sem d = false →
      parse_exam_file sem et (pre ++ d :: post) = .error .valueError := by
  intro pre
  induction pre with
  | nil =>
    intro d post _ hd
    rw [List.nil_append]
    unfold parse_exam_file
    rw [if_neg (by simp [hd]), decodeLine_unknown h.1 h.2]
  | cons raw rest ih =>
    intro d post hpre hd
    show parse_exam_file sem et (raw :: (rest ++ d :: post)) = _
    unfold parse_exam_file
    rw [if_pos (hpre raw (by simp))]
    exact ih d post (fun l hl => hpre l (List.mem_cons_of_mem _ hl)) hd

theorem parse_unknown (sem et : String) (h : unknownType et) :
    ∀ lines, parse_exam_file sem et lines = .ok [] ∨
      parse_exam_file sem et lines = .error .valueError := by
  intro lines
  induction lines with
  | nil => left; rfl
  | cons raw rest ih =>
    by_cases hs : skipLine sem raw = true
    · unfold parse_exam_file
      rw [if_pos hs]
      exact ih
    · right
      unfold parse_exam_file
      rw [if_neg hs, decodeLine_unknown h.1 h.2]

theorem decodeLine_prelim_cons (t0 t1 t2 : String) (rest : List String) :
    decodeLine "prelim" (t0 :: t1 :: t2 :: rest) =
      (if t2.length = 3 then
        match rest with
        | t3 :: rest2 =>
          .ok (.prelim (pyStrip (joinSp [t0, t1, t2])) (pyStrip t3)
            (pyStrip (joinSp rest2)))
        | [] => .error .indexError
      else
        .ok (.prelim (pyStrip (joinSp [t0, t1])) (pyStrip t2)
          (pyStrip (joinSp rest)))) := rfl

/-! ## C1 -/

/-- C1 (amended): a non-skipped line with at least 4 whitespace tokens
parses, under exam type "prelim", to exactly one record with the claimed
field layout. -/
theorem c1_nonskipped_prelim_line (sem line t0 t1 t2 t3 : String) (rest : List String)
    (hskip : skipLine sem line = false)
    (hsplit : pySplitWS (pyStrip line) = t0 :: t1 :: t2 :: t3 :: rest) :
    parse_exam_file sem "prelim" [line] =
      .ok [if t2.length = 3
        then .prelim (joinSp [t0, t1, t2]) t3 (joinSp rest)
        else .prelim (joinSp [t0, t1]) t2 (joinSp (t3 :: rest))] := by
  have hwf : ∀ t ∈ pySplitWS (pyStrip line), wfS t := pySplitWS_wf _
  rw [hsplit] at hwf
  have h0 : wfS t0 := hwf _ (by simp)
  have h1 : wfS t1 := hwf _ (by simp)
  have h2 : wfS t2 := hwf _ (by simp)
  have h3 : wfS t3 := hwf _ (by simp)
  have hr : ∀ t ∈ rest, wfS t := fun t ht => hwf t (by simp [ht])
  unfold parse_exam_file
  rw [if_neg (by simp [hskip])]
  have hpl : pyLower "prelim" = "prelim" := by decide
  rw [hpl, hsplit, decodeLine_prelim_cons]
  by_cases hl : t2.length = 3
  · rw [if_pos hl, if_pos hl]
    show Except.ok [ExamRecord.prelim (pyStrip (joinSp [t0, t1, t2]))
      (pyStrip t3) (pyStrip (joinSp rest))] = _
    rw [strip_joinSp [t0, t1, t2] (by simp [h0, h1, h2]),
      strip_single t3 h3, strip_joinSp rest hr]
  · rw [if_neg hl, if_neg hl]
    show Except.ok [ExamRecord.prelim (pyStrip (joinSp [t0, t1]))
      (pyStrip t2) (pyStrip (joinSp (t3 :: rest)))] = _
    rw [strip_joinSp [t0, t1] (by simp [h0, h1]),
      strip_single t2 h2, strip_joinSp (t3 :: rest) (by
        intro t ht
        rcases List.mem_cons.mp ht with rfl | ht2
        · exact h3
        · exact hr t ht2)]

end CUPlanner

namespace CUPlanner

/-- C1 witness: the spec's own scenario line. -/
theorem c1_witness :
    parse_exam_file "FA 2024" "prelim" ["CS 2110 10/15 Statler Hall"] =
      .ok [if ("10/15" : String).length = 3
        then .prelim (joinSp ["CS", "2110", "10/15"]) "Statler" (joinSp ["Hall"])
        else .prelim (joinSp ["CS", "2110"]) "10/15" (joinSp ["Statler", "Hall"])] :=
  c1_nonskipped_prelim_line "FA 2024" "CS 2110 10/15 Statler Hall"
    "CS" "2110" "10/15" "Statler" ["Hall"] (by decide) (by decide)

/-- C1 counterexample: a line with 5 tokens that starts with the semester
is skipped, producing zero records instead of exactly one. -/
theorem c1_counterexample :
    4 ≤ (pySplitWS (pyStrip "FA 2024 10/15 Statler Hall")).length ∧
    parse_exam_file "FA 2024" "prelim" ["FA 2024 10/15 Statler Hall"] = .ok [] := by
  decide

end CUPlanner

namespace CUPlanner

theorem decodeLine_final_cons (t0 t1 t2 : String) (rest : List String) :
    decodeLine "final" (t0 :: t1 :: t2 :: rest) =
      (if t2.length = 3 then
        match rest with
        | t3 :: rest2 =>
          .ok (.final (pyStrip (joinSp [t0, t1, t2])) (pyStrip t3)
            (pyStrip (joinSp (rest2.take 2)))
            (pyStrip (joinSp ((rest2.drop 2).take 2)))
            (pyStrip (joinSp (rest2.drop 4))))
        | [] => .error .indexError
      else
        .ok (.final (pyStrip (joinSp [t0, t1])) (pyStrip t2)
          (pyStrip (joinSp (rest.take 2)))
          (pyStrip (joinSp ((rest.drop 2).take 2)))
          (pyStrip (joinSp (rest.drop 4))))) := rfl

/-- C2 (amended): a non-skipped line with enough whitespace tokens (8 when
the third token is a length-3 section qualifier, 7 otherwise) parses,
under exam type "final", to exactly one record: course code by the prelim
disambiguation rule, then one date token, exactly two tokens of exam time,
exactly two tokens of test type, and the remaining tokens as locations. -/
theorem c2_nonskipped_final_line (sem line : String)
    (hskip : skipLine sem line = false) :
    (∀ t0 t1 t2 t3 u1 u2 u3 u4 rest,
      pySplitWS (pyStrip line) = t0 :: t1 :: t2 :: t3 :: u1 :: u2 :: u3 :: u4 :: rest →
      t2.length = 3 →
      parse_exam_file sem "final" [line] =
        .ok [.final (joinSp [t0, t1, t2]) t3 (joinSp [u1, u2]) (joinSp [u3, u4])
          (joinSp rest)]) ∧
    (∀ t0 t1 t2 u1 u2 u3 u4 rest,
      pySplitWS (pyStrip line) = t0 :: t1 :: t2 :: u1 :: u2 :: u3 :: u4 :: rest →
      t2.length ≠ 3 →
      parse_exam_file sem "final" [line] =
        .ok [.final (joinSp [t0, t1]) t2 (joinSp [u1, u2]) (joinSp [u3, u4])
          (joinSp rest)]) := by
  have hpl : pyLower "final" = "final" := by decide
  constructor
  · intro t0 t1 t2 t3 u1 u2 u3 u4 rest hsplit hlen
    have hwf : ∀ t ∈ pySplitWS (pyStrip line), wfS t := pySplitWS_wf _
    rw [hsplit] at hwf
    have hr : ∀ t ∈ rest, wfS t := fun t ht => hwf t (by simp [ht])
    unfold parse_exam_file
    rw [if_neg (by simp [hskip]), hpl, hsplit, decodeLine_final_cons, if_pos hlen]
    show Except.ok [ExamRecord.final (pyStrip (joinSp [t0, t1, t2])) (pyStrip t3)
      (pyStrip (joinSp [u1, u2])) (pyStrip (joinSp [u3, u4]))
      (pyStrip (joinSp rest))] = _
    rw [strip_joinSp [t0, t1, t2] (by
        simp [hwf t0 (by simp), hwf t1 (by simp), hwf t2 (by simp)]),
      strip_single t3 (hwf t3 (by simp)),
      strip_joinSp [u1, u2] (by simp [hwf u1 (by simp), hwf u2 (by simp)]),
      strip_joinSp [u3, u4] (by simp [hwf u3 (by simp), hwf u4 (by simp)]),
      strip_joinSp rest hr]
  · intro t0 t1 t2 u1 u2 u3 u4 rest hsplit hlen
    have hwf : ∀ t ∈ pySplitWS (pyStrip line), wfS t := pySplitWS_wf _
    rw [hsplit] at hwf
    have hr : ∀ t ∈ rest, wfS t := fun t ht => hwf t (by simp [ht])
    unfold parse_exam_file
    rw [if_neg (by simp [hskip]), hpl, hsplit, decodeLine_final_cons, if_neg hlen]
    show Except.ok [ExamRecord.final (pyStrip (joinSp [t0, t1])) (pyStrip t2)
      (pyStrip (joinSp [u1, u2])) (pyStrip (joinSp [u3, u4]))
      (pyStrip (joinSp rest))] = _
    rw [strip_joinSp [t0, t1] (by simp [hwf t0 (by simp), hwf t1 (by simp)]),
      strip_single t2 (hwf t2 (by simp)),
      strip_joinSp [u1, u2] (by simp [hwf u1 (by simp), hwf u2 (by simp)]),
      strip_joinSp [u3, u4] (by simp [hwf u3 (by simp), hwf u4 (by simp)]),
      strip_joinSp rest hr]

/-- C2 witness: the spec's own "final" scenario line. -/
theorem c2_witness :
    parse_exam_file "FA 2024" "final" ["CS 2110 001 12/14 9:00 AM in person Barton Hall"] =
      .ok [.final (joinSp ["CS", "2110", "001"]) "12/14" (joinSp ["9:00", "AM"])
        (joinSp ["in", "person"]) (joinSp ["Barton", "Hall"])] :=
  (c2_nonskipped_final_line "FA 2024" "CS 2110 001 12/14 9:00 AM in person Barton Hall"
      (by decide)).1
    "CS" "2110" "001" "12/14" "9:00" "AM" "in" "person" ["Barton", "Hall"]
    (by decide) (by decide)

/-- C2 counterexample: a "final" line with 10 tokens that starts with the
semester is skipped, producing zero records instead of exactly one. -/
theorem c2_counterexample :
    8 ≤ (pySplitWS (pyStrip "FA 2024 001 12/14 9:00 AM in person Barton Hall")).length ∧
    parse_exam_file "FA 2024" "final"
      ["FA 2024 001 12/14 9:00 AM in person Barton Hall"] = .ok [] := by
  decide

/-- C6: on any non-skipped line whose third token has length exactly 3,
whenever parsing (prelim or final) returns records for that line, the third
token is folded into course_code and exam_date is taken from the fourth
token — never from the third. -/
theorem c6_section_qualifier_folding (sem et line t0 t1 t2 : String)
    (rest : List String) (recs : List ExamRecord)
    (hty : pyLower et = "prelim" ∨ pyLower et = "final")
    (hskip : skipLine sem line = false)
    (hsplit : pySplitWS (pyStrip line) = t0 :: t1 :: t2 :: rest)
    (hlen : t2.length = 3)
    (hok : parse_exam_file sem et [line] = .ok recs) :
    ∃ r t3 rest2, rest = t3 :: rest2 ∧ recs = [r] ∧
      r.getCourseCode = joinSp [t0, t1, t2] ∧ r.getExamDate = t3 := by
  have hwf : ∀ t ∈ pySplitWS (pyStrip line), wfS t := pySplitWS_wf _
  rw [hsplit] at hwf
  have hcc : pyStrip (joinSp [t0, t1, t2]) = joinSp [t0, t1, t2] :=
    strip_joinSp [t0, t1, t2] (by
      simp [hwf t0 (by simp), hwf t1 (by simp), hwf t2 (by simp)])
  unfold parse_exam_file at hok
  rw [if_neg (by simp [hskip]), hsplit] at hok
  cases hty with
  | inl h =>
    rw [h, decodeLine_prelim_cons, if_pos hlen] at hok
    cases rest with
    | nil =>
      have hok2 : (Except.error PyErr.indexError : Except PyErr (List ExamRecord))
          = .ok recs := hok
      simp at hok2
    | cons t3 rest2 =>
      have hok2 : (Except.ok [ExamRecord.prelim (pyStrip (joinSp [t0, t1, t2]))
          (pyStrip t3) (pyStrip (joinSp rest2))] : Except PyErr (List ExamRecord))
          = .ok recs := hok
      have hd : pyStrip t3 = t3 := strip_single t3 (hwf t3 (by simp))
      refine ⟨ExamRecord.prelim (pyStrip (joinSp [t0, t1, t2])) (pyStrip t3)
        (pyStrip (joinSp rest2)), t3, rest2, rfl, ?_, by simpa [ExamRecord.getCourseCode] using hcc,
        by simpa [ExamRecord.getExamDate] using hd⟩
      injection hok2 with h2
      exact h2.symm
  | inr h =>
    rw [h, decodeLine_final_cons, if_pos hlen] at hok
    cases rest with
    | nil =>
      have hok2 : (Except.error PyErr.indexError : Except PyErr (List ExamRecord))
          = .ok recs := hok
      simp at hok2
    | cons t3 rest2 =>
      have hok2 : (Except.ok [ExamRecord.final (pyStrip (joinSp [t0, t1, t2]))
          (pyStrip t3) (pyStrip (joinSp (rest2.take 2)))
          (pyStrip (joinSp ((rest2.drop 2).take 2)))
          (pyStrip (joinSp (rest2.drop 4)))] : Except PyErr (List ExamRecord))
          = .ok recs := hok
      have hd : pyStrip t3 = t3 := strip_single t3 (hwf t3 (by simp))
      refine ⟨ExamRecord.final (pyStrip (joinSp [t0, t1, t2])) (pyStrip t3)
        (pyStrip (joinSp (rest2.take 2))) (pyStrip (joinSp ((rest2.drop 2).take 2)))
        (pyStrip (joinSp (rest2.drop 4))), t3, rest2, rfl, ?_,
        by simpa [ExamRecord.getCourseCode] using hcc,
        by simpa [ExamRecord.getExamDate] using hd⟩
      injection hok2 with h2
      exact h2.symm

/-- C6 witness: a prelim line with a section qualifier of length 3. -/
theorem c6_witness :
    ∃ r t3 rest2, (["10/15", "Statler"] : List String) = t3 :: rest2 ∧
      [ExamRecord.prelim "CS 2110 001" "10/15" "Statler"] = [r] ∧
      r.getCourseCode = joinSp ["CS", "2110", "001"] ∧ r.getExamDate = t3 :=
  c6_section_qualifier_folding "FA 2024" "prelim" "CS 2110 001 10/15 Statler"
    "CS" "2110" "001" ["10/15", "Statler"]
    [ExamRecord.prelim "CS 2110 001" "10/15" "Statler"]
    (Or.inl (by decide)) (by decide) (by decide) (by decide) (by decide)

/-- C7: a non-skipped line with fewer than 3 whitespace tokens makes
parsing fail with an IndexError (positional indexing, no prior length
validation), for both recognised exam types. -/
theorem c7_short_line_index_error (sem et line : String)
    (hty : pyLower et = "prelim" ∨ pyLower et = "final")
    (hskip : skipLine sem line = false)
    (hlen : (pySplitWS (pyStrip line)).length < 3) :
    parse_exam_file sem et [line] = .error .indexError := by
  unfold parse_exam_file
  rw [if_neg (by simp [hskip])]
  rcases hp : pySplitWS (pyStrip line) with _ | ⟨a, _ | ⟨b, _ | ⟨c, r⟩⟩⟩
  · rcases hty with h | h <;> rw [h] <;> rfl
  · rcases hty with h | h <;> rw [h] <;> rfl
  · rcases hty with h | h <;> rw [h] <;> rfl
  · rw [hp] at hlen
    simp at hlen
    omega

/-- C7 witness: a two-token line under exam type "final". -/
theorem c7_witness :
    parse_exam_file "FA 2024" "final" ["CS 2110"] = .error .indexError :=
  c7_short_line_index_error "FA 2024" "final" "CS 2110"
    (Or.inr (by decide)) (by decide) (by decide)

/-- C10: the unknown-exam-type check happens per line, not per call: with
any exam type, parsing an input whose lines are all skipped (empty or
starting with the semester label) returns the empty list, and with an
unrecognised exam type the ValueError surfaces exactly when the first
non-skipped data line is reached. -/
theorem c10_per_line_exam_type_check (sem et : String) :
    (∀ lines, (∀ l ∈ lines, skipLine sem l = true) →
      parse_exam_file sem et lines = .ok []) ∧
    (unknownType et →
      ∀ pre d post, (∀ l ∈ pre, skipLine sem l = true) → skipLine sem d = false →
        parse_exam_file sem et (pre ++ d :: post) = .error .valueError) :=
  ⟨parse_skipAll sem et,
   fun h pre d post hpre hd => parse_unknown_first_data sem et h pre d post hpre hd⟩

/-- C10 witness: exam type "midterm" with all-skipped input, and with a
data line appearing after a skipped line. -/
theorem c10_witness :
    parse_exam_file "FA 2024" "midterm" ["", "FA 2024 Exam Schedule"] = .ok [] ∧
    parse_exam_file "FA 2024" "midterm" ([""] ++ "CS 2110 10/15 Statler Hall" :: []) =
      .error .valueError :=
  ⟨(c10_per_line_exam_type_check "FA 2024" "midterm").1 _ (by decide),
   (c10_per_line_exam_type_check "FA 2024" "midterm").2 (by exact ⟨by decide, by decide⟩)
     [""] "CS 2110 10/15 Statler Hall" [] (by decide) (by decide)⟩

end CUPlanner

namespace CUPlanner

set_option maxRecDepth 4000

/-- C3: evaluating the SQL the code generates for exam type "final" shows
the claim cannot hold there: the INSERT and UPDATE statements use a column
`exam_or_deliverable` that the CREATE TABLE statement never declares (it
declares `test_type`), and the CREATE TABLE statement lists five columns
with only three comma separators (the comma after `test_type TEXT NOT
NULL` is missing), i.e. it is not even well-formed SQL — while the prelim
statement has the expected two separators for three columns. -/
theorem c3_final_schema_mismatch :
    occursSub "exam_or_deliverable".data
      (qstr (generate_insert_exam_query "t" "final")).data = true ∧
    occursSub "exam_or_deliverable".data
      (qstr (generate_update_exam_query "t" "final")).data = true ∧
    occursSub "exam_or_deliverable".data
      (qstr (generate_create_table_query "t" "final")).data = false ∧
    occursSub "course_code".data
      (qstr (generate_create_table_query "t" "final")).data = true ∧
    occursSub "exam_date".data
      (qstr (generate_create_table_query "t" "final")).data = true ∧
    occursSub "exam_time".data
      (qstr (generate_create_table_query "t" "final")).data = true ∧
    occursSub "test_type".data
      (qstr (generate_create_table_query "t" "final")).data = true ∧
    occursSub "exam_locations".data
      (qstr (generate_create_table_query "t" "final")).data = true ∧
    (qstr (generate_create_table_query "t" "final")).data.count ',' = 3 ∧
    (qstr (generate_create_table_query "t" "prelim")).data.count ',' = 2 := by
  decide

/-- C4 counterexample: with the unknown exam type "midterm",
`create_exam_table` does raise a ValueError, but only after switching
`self.table_name` — state visible to every later operation. -/
theorem c4_counterexample :
    (create_exam_table (initState "FA 2024" "midterm" []) "FA" "midterm" "2024").2
      = .error .valueError ∧
    (create_exam_table (initState "FA 2024" "midterm" []) "FA" "midterm" "2024").1.table_name
      = some "FA_2024_midterm_exams" ∧
    (initState "FA 2024" "midterm" []).table_name = none := by
  decide

/-- C8 counterexample: for semester "FA 2024" the artifact file name the
scraper writes is "fa 2024-2024-prelim-exams.txt" — lower-cased but with
the semester's internal space preserved, not hyphen-joined. -/
theorem c8_counterexample :
    (parse_html (initState "FA 2024" "prelim" [])
        ⟨"Fall 2024", "hdr", "body"⟩).1.scraper.file_name
      = some "fa 2024-2024-prelim-exams.txt" ∧
    ' ' ∈ "fa 2024-2024-prelim-exams.txt".data := by
  decide

/-- C9 counterexample: `process_exam_data` only catches
`FileNotFoundError`; with an unknown exam type and a data line present,
the parser's ValueError propagates to the caller instead of being logged
and turned into a sentinel. -/
theorem c9_counterexample :
    process_exam_data { initState "FA 2024" "midterm" [] with
        files := [("exams.txt", "CS 2110 10/15 Statler Hall")] } "exams.txt"
      = .error .valueError := by
  decide

/-- C5 counterexample: populating from a page with two exam lines, where
the INSERT of the first row fails with an `OperationalError`, still
reports success and leaves exactly the second row committed — the batch is
neither all-or-nothing nor aborted, and no error surfaces to the caller. -/
theorem c5_counterexample :
    (populate_exam_table
        (some ⟨"FA 2024", "hdr", "CS 2110 10/15 Statler Hall\nCS 3110 10/16 Uris Hall"⟩)
        (initState "FA 2024" "prelim" [⟨["CS 2110", "10/15", "Statler Hall"]⟩])
        "FA 2024" "prelim").2 = .ok true ∧
    getTable (populate_exam_table
        (some ⟨"FA 2024", "hdr", "CS 2110 10/15 Statler Hall\nCS 3110 10/16 Uris Hall"⟩)
        (initState "FA 2024" "prelim" [⟨["CS 2110", "10/15", "Statler Hall"]⟩])
        "FA 2024" "prelim").1.committed "FA 2024_2024_prelim_exams"
      = some [⟨["CS 3110", "10/16", "Uris Hall"]⟩] := by
  decide

end CUPlanner

namespace CUPlanner

/-- On a well-formed page (the heading has a second token, the year), the
extraction succeeds: header/year/file name recorded, artifact written,
body returned. -/
theorem parse_html_success (s : SysState) (p : Page) (y : String)
    (hy : (pySplitWS p.semester_info).get? 1 = some y) :
    parse_html s p =
      ({ s with
          scraper := { s.scraper with
            exam_data_header := some p.header,
            year := some y,
            file_name := some (pyLower s.scraper.semester ++ "-" ++ y ++ "-" ++
              pyLower s.scraper.exam_type ++ "-exams.txt") },
          files := (pyLower s.scraper.semester ++ "-" ++ y ++ "-" ++
              pyLower s.scraper.exam_type ++ "-exams.txt",
            p.semester_info ++ "\n" ++ p.body) :: s.files },
       .ok p.body) := by
  unfold parse_html save_to_text_file
  rw [hy]

/-- On a well-formed page, the whole scrape succeeds and returns the body. -/
theorem scrape_success (s : SysState) (p : Page) (y : String)
    (hy : (pySplitWS p.semester_info).get? 1 = some y) :
    scrape_course_info (some p) s =
      ({ s with
          scraper := { s.scraper with
            exam_data_header := some p.header,
            year := some y,
            file_name := some (pyLower s.scraper.semester ++ "-" ++ y ++ "-" ++
              pyLower s.scraper.exam_type ++ "-exams.txt") },
          files := (pyLower s.scraper.semester ++ "-" ++ y ++ "-" ++
              pyLower s.scraper.exam_type ++ "-exams.txt",
            p.semester_info ++ "\n" ++ p.body) :: s.files },
       .ok (.inl p.body)) := by
  show (match parse_html s p with
    | (s1, .error _) => (s1, Except.ok (Sum.inr false))
    | (s1, .ok body) => (s1, Except.ok (Sum.inl body))) = _
  rw [parse_html_success s p y hy]

/-- C8 (amended): the scraper writes the concatenated header and body to a
file named `f"{semester.lower()}-{year}-{exam_type.lower()}-exams.txt"` —
lower-cased and hyphen-separated between the three components, though
whitespace inside the semester itself is preserved, not hyphenated. -/
theorem c8_artifact_file_name (s : SysState) (p : Page) (y : String)
    (hy : (pySplitWS p.semester_info).get? 1 = some y) :
    (parse_html s p).2 = .ok p.body ∧
    (parse_html s p).1.scraper.file_name =
      some (pyLower s.scraper.semester ++ "-" ++ y ++ "-" ++
        pyLower s.scraper.exam_type ++ "-exams.txt") ∧
    (parse_html s p).1.files.lookup
        (pyLower s.scraper.semester ++ "-" ++ y ++ "-" ++
          pyLower s.scraper.exam_type ++ "-exams.txt")
      = some (p.semester_info ++ "\n" ++ p.body) := by
  unfold parse_html save_to_text_file
  rw [hy]
  refine ⟨rfl, rfl, ?_⟩
  simp [List.lookup]

/-- C8 witness: scraping semester "FA 2024", exam type "prelim". -/
theorem c8_witness :
    (parse_html (initState "FA 2024" "prelim" []) ⟨"Fall 2024", "hdr", "body"⟩).2
      = .ok ("body" : String) ∧
    (parse_html (initState "FA 2024" "prelim" []) ⟨"Fall 2024", "hdr", "body"⟩).1.scraper.file_name
      = some (pyLower "FA 2024" ++ "-" ++ "2024" ++ "-" ++ pyLower "prelim" ++ "-exams.txt") ∧
    (parse_html (initState "FA 2024" "prelim" []) ⟨"Fall 2024", "hdr", "body"⟩).1.files.lookup
        (pyLower "FA 2024" ++ "-" ++ "2024" ++ "-" ++ pyLower "prelim" ++ "-exams.txt")
      = some ("Fall 2024" ++ "\n" ++ "body") :=
  c8_artifact_file_name (initState "FA 2024" "prelim" []) ⟨"Fall 2024", "hdr", "body"⟩
    "2024" (by decide)

/-- C9 (amended): `scrape_course_info` and the file-write helper do catch
broadly and return sentinels — a scrape never raises; a missing artifact
file is caught in `process_exam_data` and becomes the sentinel `False`; a
row-level `OperationalError` inside `insert_exam` is caught and becomes
the sentinel `False` with the state unchanged.  But the catching is *not*
universal: `process_exam_data` catches only `FileNotFoundError`, so the
parser's ValueError for an unrecognised exam type propagates to the
caller. -/
theorem c9_error_handling :
    (∀ page s, ∃ b, (scrape_course_info page s).2 = .ok b) ∧
    (∀ s fp, s.files.lookup fp = none → process_exam_data s fp = .ok (.inr false)) ∧
    (∀ s code date loc time tt, Row.mk [code, date, loc] ∈ s.failing →
      insert_exam s code date loc "prelim" time tt = (s, .ok false)) ∧
    (∀ s fp content, unknownType s.scraper.exam_type →
      s.files.lookup fp = some content →
      (∃ pre d post, pySplitLines content = pre ++ d :: post ∧
        (∀ l ∈ pre, skipLine s.scraper.semester l = true) ∧
        skipLine s.scraper.semester d = false) →
      process_exam_data s fp = .error .valueError) := by
  refine ⟨?_, ?_, ?_, ?_⟩
  · intro page s
    cases page with
    | none => exact ⟨.inr false, rfl⟩
    | some p =>
      rcases hp : parse_html s p with ⟨s1, r⟩
      cases r with
      | error e =>
        refine ⟨.inr false, ?_⟩
        show (match parse_html s p with
          | (s1, .error _) => (s1, Except.ok (Sum.inr false))
          | (s1, .ok body) => (s1, Except.ok (Sum.inl body))).2 = _
        rw [hp]
      | ok body =>
        refine ⟨.inl body, ?_⟩
        show (match parse_html s p with
          | (s1, .error _) => (s1, Except.ok (Sum.inr false))
          | (s1, .ok body) => (s1, Except.ok (Sum.inl body))).2 = _
        rw [hp]
  · intro s fp h
    unfold process_exam_data
    rw [h]
  · intro s code date loc time tt h
    unfold insert_exam generate_insert_exam_query
    rw [if_pos (show pyLower (pyLower "prelim") = "prelim" by decide)]
    show (match execInsert s (optionStr s.table_name)
        (if pyLower "prelim" = "prelim" then ⟨[code, date, loc]⟩
         else ⟨[code, date, optionStr time, optionStr tt, loc]⟩) with
      | (s1, .error .operationalError) => (s1, Except.ok false)
      | (s1, .error e) => (s1, .error e)
      | (s1, .ok ()) => (dbCommit s1, .ok true)) = (s, .ok false)
    rw [if_pos (show pyLower "prelim" = "prelim" by decide)]
    unfold execInsert
    rw [if_pos h]
  · intro s fp content hunk hfile hdata
    rcases hdata with ⟨pre, d, post, hsplit, hpre, hd⟩
    unfold process_exam_data
    rw [hfile]
    show (match parse_exam_file s.scraper.semester s.scraper.exam_type
        (pySplitLines content) with
      | Except.error e => Except.error e
      | Except.ok recs => Except.ok (Sum.inl recs)) = _
    rw [hsplit, parse_unknown_first_data s.scraper.semester s.scraper.exam_type
      hunk pre d post hpre hd]

/-- C9 witness: the sentinel cases at concrete inputs. -/
theorem c9_witness :
    process_exam_data (initState "FA 2024" "prelim" []) "missing.txt" = .ok (.inr false) ∧
    insert_exam { initState "FA 2024" "prelim" [⟨["CS 2110", "10/15", "Statler"]⟩] with
        table_name := some "tbl" } "CS 2110" "10/15" "Statler" "prelim" none none
      = ({ initState "FA 2024" "prelim" [⟨["CS 2110", "10/15", "Statler"]⟩] with
          table_name := some "tbl" }, .ok false) :=
  ⟨c9_error_handling.2.1 (initState "FA 2024" "prelim" []) "missing.txt" (by decide),
   c9_error_handling.2.2.1 { initState "FA 2024" "prelim"
        [⟨["CS 2110", "10/15", "Statler"]⟩] with table_name := some "tbl" }
     "CS 2110" "10/15" "Statler" none none (by decide)⟩

end CUPlanner

namespace CUPlanner

/-- C4 (amended): an exam type outside {prelim, final} makes every entry
point raise a ValueError-class failure before any table *row* is touched —
but not before every side effect: `create_exam_table` switches the
selected table name first (and `populate` both writes the artifact file
and switches the table name before the error escapes), and `fetch_exam`
raises only when at least one row matches (an empty result returns `[]`
without any error). -/
theorem c4_unknown_exam_type_fail_fast :
    (∀ s sem et yr, unknownType et →
      create_exam_table s sem et yr =
        ({ s with table_name := some (sem ++ "_" ++ yr ++ "_" ++ et ++ "_exams") },
         .error .valueError)) ∧
    (∀ s code date loc et time tt, unknownType et →
      update_exam s code date loc et time tt = (s, .error .valueError)) ∧
    (∀ s cc et rows r rs, unknownType et →
      getTable s.pending (optionStr s.table_name) = some rows →
      rows.filter (fun q => q.cells.get? 0 == some cc) = r :: rs →
      fetch_exam s cc et = (s, .error .valueError)) ∧
    (∀ p s sem et y, unknownType et → s.scraper.exam_type = et →
      (pySplitWS p.semester_info).get? 1 = some y →
      (populate_exam_table (some p) s sem et).2 = .error .valueError ∧
      (populate_exam_table (some p) s sem et).1.pending = s.pending ∧
      (populate_exam_table (some p) s sem et).1.committed = s.committed) := by
  refine ⟨?_, ?_, ?_, ?_⟩
  · intro s sem et yr h
    unfold create_exam_table generate_create_table_query
    simp only [if_neg h.1, if_neg h.2]
  · intro s code date loc et time tt h
    unfold update_exam generate_update_exam_query
    simp only [if_neg h.1, if_neg h.2]
  · intro s cc et rows r rs h hrows hflt
    have h1 : et ≠ "prelim" := by
      intro he
      exact h.1 (by rw [he]; decide)
    have h2 : et ≠ "final" := by
      intro he
      exact h.2 (by rw [he]; decide)
    have hfmt : format_exam_record r et = .error .valueError := by
      unfold format_exam_record
      rw [if_neg h1, if_neg h2]
    unfold fetch_exam
    rw [hrows]
    show (match (rows.filter (fun q => q.cells.get? 0 == some cc)).mapM
        (fun q => format_exam_record q et) with
      | .error e => (s, Except.error e)
      | .ok recs => (s, .ok recs)) = _
    rw [hflt, List.mapM_cons, hfmt]
    rfl
  · intro p s sem et y h hse hy
    have hsc := scrape_success s p y hy
    have hup := unknownType_pyLower h
    rcases parse_unknown s.scraper.semester et h
        (pySplitLines (p.semester_info ++ "\n" ++ p.body)) with hok | herr
    all_goals
      unfold populate_exam_table
      rw [hsc]
      unfold process_exam_data
      simp only [List.lookup, beq_self_eq_true]
      rw [hse]
    · rw [hok]
      unfold create_exam_table generate_create_table_query
      simp only [if_neg hup.1, if_neg hup.2]
      exact ⟨trivial, trivial, trivial⟩
    · rw [herr]
      exact ⟨rfl, rfl, rfl⟩

end CUPlanner

namespace CUPlanner

/-- C4 witness: exam type "midterm" at `create_exam_table` and
`update_exam` on a fresh state. -/
theorem c4_witness :
    create_exam_table (initState "FA 2024" "midterm" []) "FA" "midterm" "2024" =
      ({ initState "FA 2024" "midterm" [] with
          table_name := some ("FA" ++ "_" ++ "2024" ++ "_" ++ "midterm" ++ "_exams") },
       .error .valueError) ∧
    update_exam (initState "FA 2024" "midterm" []) "a" "b" "c" "midterm" none none =
      (initState "FA 2024" "midterm" [], .error .valueError) :=
  ⟨c4_unknown_exam_type_fail_fast.1 (initState "FA 2024" "midterm" [])
      "FA" "midterm" "2024" ⟨by decide, by decide⟩,
   c4_unknown_exam_type_fail_fast.2.1 (initState "FA 2024" "midterm" [])
      "a" "b" "c" "midterm" none none ⟨by decide, by decide⟩⟩

/-- A prelim INSERT whose row is in the failing set: caught, sentinel
`False`, no state change. -/
theorem insert_prelim_fail (s : SysState) (code date loc : String)
    (time tt : Option String) (h : Row.mk [code, date, loc] ∈ s.failing) :
    insert_exam s code date loc "prelim" time tt = (s, .ok false) := by
  unfold insert_exam generate_insert_exam_query
  rw [if_pos (show pyLower (pyLower "prelim") = "prelim" by decide)]
  show (match execInsert s (optionStr s.table_name)
      (if pyLower "prelim" = "prelim" then ⟨[code, date, loc]⟩
       else ⟨[code, date, optionStr time, optionStr tt, loc]⟩) with
    | (s1, .error .operationalError) => (s1, Except.ok false)
    | (s1, .error e) => (s1, .error e)
    | (s1, .ok ()) => (dbCommit s1, .ok true)) = (s, .ok false)
  rw [if_pos (show pyLower "prelim" = "prelim" by decide)]
  unfold execInsert
  rw [if_pos h]

theorem execInsert_ok (s : SysState) (t : String) (row : Row) (rows : List Row)
    (hmem : row ∉ s.failing) (hrows : getTable s.pending t = some rows) :
    execInsert s t row =
      ({ s with pending := putTable s.pending t (rows ++ [row]) }, .ok ()) := by
  unfold execInsert
  rw [if_neg hmem, hrows]

/-- A successful prelim INSERT appends the row and commits at once. -/
theorem insert_prelim_ok (s : SysState) (code date loc : String)
    (time tt : Option String) (rows : List Row)
    (hmem : Row.mk [code, date, loc] ∉ s.failing)
    (hrows : getTable s.pending (optionStr s.table_name) = some rows) :
    insert_exam s code date loc "prelim" time tt =
      (dbCommit { s with pending := (putTable s.pending (optionStr s.table_name)
          (rows ++ [⟨[code, date, loc]⟩])) },
       .ok true) := by
  unfold insert_exam generate_insert_exam_query
  rw [if_pos (show pyLower (pyLower "prelim") = "prelim" by decide)]
  show (match execInsert s (optionStr s.table_name)
      (if pyLower "prelim" = "prelim" then ⟨[code, date, loc]⟩
       else ⟨[code, date, optionStr time, optionStr tt, loc]⟩) with
    | (s1, .error .operationalError) => (s1, Except.ok false)
    | (s1, .error e) => (s1, .error e)
    | (s1, .ok ()) => (dbCommit s1, .ok true)) = _
  rw [if_pos (show pyLower "prelim" = "prelim" by decide),
    execInsert_ok s (optionStr s.table_name) _ rows hmem hrows]

theorem getTable_putTable (tabs : List (String × List Row)) (t : String)
    (rows : List Row) : getTable (putTable tabs t rows) t = some rows := by
  simp [getTable, putTable, List.lookup]

/-- Running the populate loop over prelim records: every record whose row
is not in the failing set is appended (in order) and committed; failing
rows are silently skipped; the loop always reports success. -/
theorem insertLoop_prelim (t : String) :
    ∀ (recs : List ExamRecord) (s : SysState) (rows : List Row),
      s.table_name = some t →
      getTable s.pending t = some rows →
      ∃ s2, insertLoop "prelim" s recs = (s2, .ok ()) ∧
        s2.table_name = some t ∧
        s2.failing = s.failing ∧
        s2.scraper = s.scraper ∧
        s2.files = s.files ∧
        getTable s2.pending t = some (rows ++
          (recs.filter (fun r => !decide (prelimRow r ∈ s.failing))).map prelimRow) := by
  intro recs
  induction recs with
  | nil =>
    intro s rows htn hrows
    exact ⟨s, rfl, htn, rfl, rfl, rfl, by simpa using hrows⟩
  | cons r rs ih =>
    intro s rows htn hrows
    have hos : optionStr s.table_name = t := by
      rw [htn]
      rfl
    unfold insertLoop
    rw [if_neg (show ¬("prelim" : String) = "final" by decide)]
    by_cases hmem : prelimRow r ∈ s.failing
    · rw [show insert_exam s r.getCourseCode r.getExamDate r.getExamLocations
          "prelim" none none = (s, .ok false) from
        insert_prelim_fail s _ _ _ none none hmem]
      rcases ih s rows htn hrows with ⟨s2, hloop, h1, h2, h3, h4, h5⟩
      refine ⟨s2, hloop, h1, h2, h3, h4, ?_⟩
      rw [h5]
      congr 2
      simp [List.filter_cons, hmem]
    · rw [show insert_exam s r.getCourseCode r.getExamDate r.getExamLocations
          "prelim" none none =
        (dbCommit { s with pending := (putTable s.pending (optionStr s.table_name)
            (rows ++ [prelimRow r])) }, .ok true) from
        insert_prelim_ok s _ _ _ none none rows hmem (by rw [hos]; exact hrows)]
      have htn2 : (dbCommit { s with pending := (putTable s.pending
          (optionStr s.table_name) (rows ++ [prelimRow r])) }).table_name = some t := htn
      have hrows2 : getTable (dbCommit { s with pending := (putTable s.pending
          (optionStr s.table_name) (rows ++ [prelimRow r])) }).pending t
            = some (rows ++ [prelimRow r]) := by
        show getTable (putTable s.pending (optionStr s.table_name)
          (rows ++ [prelimRow r])) t = _
        rw [hos]
        exact getTable_putTable _ _ _
      rcases ih _ _ htn2 hrows2 with ⟨s2, hloop, h1, h2, h3, h4, h5⟩
      refine ⟨s2, hloop, h1, h2, h3, h4, ?_⟩
      rw [h5]
      congr 1
      show rows ++ [prelimRow r] ++ _ = rows ++ _
      rw [List.append_assoc]
      congr 1
      rw [show (r :: rs).filter (fun q => !decide (prelimRow q ∈ s.failing)) =
          r :: rs.filter (fun q => !decide (prelimRow q ∈ s.failing)) by
        simp [List.filter_cons, hmem]]
      rfl

end CUPlanner

namespace CUPlanner

theorem optionStr_some (x : String) : optionStr (some x) = x := rfl

theorem afterScrape_file_name (s : SysState) (p : Page) (y : String) :
    (afterScrape s p y).scraper.file_name = some (fileName s y) := rfl

theorem afterScrape_files (s : SysState) (p : Page) (y : String) :
    (afterScrape s p y).files =
      (fileName s y, p.semester_info ++ "\n" ++ p.body) :: s.files := rfl

theorem afterScrape_semester (s : SysState) (p : Page) (y : String) :
    (afterScrape s p y).scraper.semester = s.scraper.semester := rfl

theorem afterScrape_exam_type (s : SysState) (p : Page) (y : String) :
    (afterScrape s p y).scraper.exam_type = s.scraper.exam_type := rfl

theorem afterScrape_year (s : SysState) (p : Page) (y : String) :
    (afterScrape s p y).scraper.year = some y := rfl

theorem afterScrape_pending (s : SysState) (p : Page) (y : String) :
    (afterScrape s p y).pending = s.pending := rfl

theorem afterScrape_failing (s : SysState) (p : Page) (y : String) :
    (afterScrape s p y).failing = s.failing := rfl

/-- `scrape_success`, stated through `afterScrape`. -/
theorem scrape_success' (s : SysState) (p : Page) (y : String)
    (hy : (pySplitWS p.semester_info).get? 1 = some y) :
    scrape_course_info (some p) s = (afterScrape s p y, .ok (.inl p.body)) :=
  scrape_success s p y hy

/-- Creating a fresh prelim table switches the table name, creates the
empty table, and commits. -/
theorem create_prelim_ok (s : SysState) (sem y : String)
    (hfresh : getTable s.pending (sem ++ "_" ++ y ++ "_" ++ "prelim" ++ "_exams") = none) :
    create_exam_table s sem "prelim" y =
      (afterCreatePrelim s (sem ++ "_" ++ y ++ "_" ++ "prelim" ++ "_exams"), .ok true) := by
  unfold create_exam_table generate_create_table_query execCreate afterCreatePrelim
  simp only [if_pos (show pyLower "prelim" = "prelim" by decide)]
  rw [show getTable ({ s with table_name := some (sem ++ "_" ++ y ++ "_" ++ "prelim" ++ "_exams") } : SysState).pending
      (sem ++ "_" ++ y ++ "_" ++ "prelim" ++ "_exams") = none from hfresh]

end CUPlanner

namespace CUPlanner

theorem afterCreatePrelim_table_name (s : SysState) (t : String) :
    (afterCreatePrelim s t).table_name = some t := rfl

theorem afterCreatePrelim_pending (s : SysState) (t : String) :
    (afterCreatePrelim s t).pending = putTable s.pending t [] := rfl

theorem afterCreatePrelim_failing (s : SysState) (t : String) :
    (afterCreatePrelim s t).failing = s.failing := rfl

theorem dbCommit_pending (s : SysState) : (dbCommit s).pending = s.pending := rfl

theorem dbCommit_committed (s : SysState) : (dbCommit s).committed = s.pending := rfl

/-- C5 (amended): populate inserts row by row, committing after every
successful row; a row-level insert failure is caught inside `insert_exam`
and silently skipped, the loop continues, and populate still reports
success, ending with exactly the non-failing rows visible. -/
theorem c5_populate_row_by_row (p : Page) (s : SysState) (sem et y : String)
    (recs : List ExamRecord)
    (hty : pyLower et = "prelim")
    (hse : s.scraper.exam_type = et)
    (hy : (pySplitWS p.semester_info).get? 1 = some y)
    (hparse : parse_exam_file s.scraper.semester et
      (pySplitLines (p.semester_info ++ "\n" ++ p.body)) = .ok recs)
    (hfresh : getTable s.pending (sem ++ "_" ++ y ++ "_" ++ pyLower et ++ "_exams") = none) :
    (populate_exam_table (some p) s sem et).2 = .ok true ∧
    getTable (populate_exam_table (some p) s sem et).1.pending
        (sem ++ "_" ++ y ++ "_" ++ pyLower et ++ "_exams")
      = some ((recs.filter (fun r => !decide (prelimRow r ∈ s.failing))).map prelimRow) ∧
    (populate_exam_table (some p) s sem et).1.committed
      = (populate_exam_table (some p) s sem et).1.pending := by
  have hsc := scrape_success' s p y hy
  rw [hty] at hfresh ⊢
  have hfresh2 : getTable (afterScrape s p y).pending
      (sem ++ "_" ++ y ++ "_" ++ "prelim" ++ "_exams") = none := by
    rw [afterScrape_pending]
    exact hfresh
  obtain ⟨s3, hloop, h1, h2, h3, h4, h5⟩ :=
    insertLoop_prelim (sem ++ "_" ++ y ++ "_" ++ "prelim" ++ "_exams") recs
      (afterCreatePrelim (afterScrape s p y) (sem ++ "_" ++ y ++ "_" ++ "prelim" ++ "_exams"))
      [] (afterCreatePrelim_table_name _ _)
      (by rw [afterCreatePrelim_pending]; exact getTable_putTable _ _ _)
  have hproc : process_exam_data (afterScrape s p y) (fileName s y)
      = .ok (.inl recs) := by
    unfold process_exam_data
    rw [show (afterScrape s p y).files.lookup (fileName s y)
        = some (p.semester_info ++ "\n" ++ p.body) by
      rw [afterScrape_files]
      simp [List.lookup]]
    show (match parse_exam_file (afterScrape s p y).scraper.semester
        (afterScrape s p y).scraper.exam_type
        (pySplitLines (p.semester_info ++ "\n" ++ p.body)) with
      | Except.error e => Except.error e
      | Except.ok recs2 => Except.ok (Sum.inl recs2)) = _
    rw [afterScrape_semester, afterScrape_exam_type, hse, hparse]
  have hpop : populate_exam_table (some p) s sem et = (dbCommit s3, .ok true) := by
    unfold populate_exam_table
    rw [hsc]
    show (match process_exam_data (afterScrape s p y) (fileName s y) with
      | .error e => ((afterScrape s p y), Except.error e)
      | .ok ed =>
        match create_exam_table (afterScrape s p y) sem (pyLower et)
            (optionStr (afterScrape s p y).scraper.year) with
        | (s2, .error e) => (s2, Except.error e)
        | (s2, .ok _) =>
          match ed with
          | .inr _b => (s2, Except.error PyErr.typeError)
          | .inl recs2 =>
            match insertLoop (pyLower et) s2 recs2 with
            | (s4, .error e) => (s4, Except.error e)
            | (s4, .ok ()) => (dbCommit s4, Except.ok true)) = _
    rw [hproc, hty, show (afterScrape s p y).scraper.year = some y from rfl,
      optionStr_some, create_prelim_ok (afterScrape s p y) sem y hfresh2]
    show (match insertLoop "prelim" (afterCreatePrelim (afterScrape s p y)
        (sem ++ "_" ++ y ++ "_" ++ "prelim" ++ "_exams")) recs with
      | (s4, .error e) => (s4, Except.error e)
      | (s4, .ok ()) => (dbCommit s4, Except.ok true)) = _
    rw [hloop]
  rw [hpop]
  refine ⟨rfl, ?_, rfl⟩
  rw [dbCommit_pending, h5,
    show (afterCreatePrelim (afterScrape s p y)
      (sem ++ "_" ++ y ++ "_" ++ "prelim" ++ "_exams")).failing = s.failing from rfl]
  rfl

end CUPlanner

namespace CUPlanner

/-- C5 witness: populating from a two-line page with no failing rows. -/
theorem c5_witness :
    (populate_exam_table
        (some ⟨"FA 2024", "hdr", "CS 2110 10/15 Statler Hall\nCS 3110 10/16 Uris Hall"⟩)
        (initState "FA 2024" "prelim" []) "FA 2024" "prelim").2 = .ok true ∧
    getTable (populate_exam_table
        (some ⟨"FA 2024", "hdr", "CS 2110 10/15 Statler Hall\nCS 3110 10/16 Uris Hall"⟩)
        (initState "FA 2024" "prelim" []) "FA 2024" "prelim").1.pending
        ("FA 2024" ++ "_" ++ "2024" ++ "_" ++ pyLower "prelim" ++ "_exams")
      = some ((([ExamRecord.prelim "CS 2110" "10/15" "Statler Hall",
            ExamRecord.prelim "CS 3110" "10/16" "Uris Hall"].filter
          (fun r => !decide (prelimRow r ∈ (initState "FA 2024" "prelim" []).failing))).map
            prelimRow)) ∧
    (populate_exam_table
        (some ⟨"FA 2024", "hdr", "CS 2110 10/15 Statler Hall\nCS 3110 10/16 Uris Hall"⟩)
        (initState "FA 2024" "prelim" []) "FA 2024" "prelim").1.committed
      = (populate_exam_table
        (some ⟨"FA 2024", "hdr", "CS 2110 10/15 Statler Hall\nCS 3110 10/16 Uris Hall"⟩)
        (initState "FA 2024" "prelim" []) "FA 2024" "prelim").1.pending :=
  c5_populate_row_by_row
    ⟨"FA 2024", "hdr", "CS 2110 10/15 Statler Hall\nCS 3110 10/16 Uris Hall"⟩
    (initState "FA 2024" "prelim" []) "FA 2024" "prelim" "2024"
    [ExamRecord.prelim "CS 2110" "10/15" "Statler Hall",
     ExamRecord.prelim "CS 3110" "10/16" "Uris Hall"]
    (by decide) (by decide) (by decide) (by decide) (by decide)

end CUPlanner
